import Mathlib

/-!
# Verification of the product availability monitor

Shallow embedding of `monitor.py`: the status store (`load_previous_status`,
`save_status` with the flat JSON object codec used by `json.dump`/`json.load`),
the clickability classifier (`check_button_clickability`,
`check_product_availability`), the notifier (`send_email`,
`test_gmail_connection`) and the run orchestrator (`main`), together with
theorems checking the natural-language specification against them.

External effects are made explicit parameters: environment variables become an
`Env` record, SMTP transport outcomes and file-write outcomes become booleans,
and each browser interaction that can raise becomes an `Except` value.
-/

namespace ProductMonitor

/-! ## Status store: flat JSON object codec

Models `json.dump(status_data, f)` / `json.load(f)` restricted to the shape the
script uses: a flat object mapping string keys to booleans, rendered the way
Python prints it (`{"k": true, "k2": false}`), with `"` and `\` escaped in
keys. -/

/-- Escape one character of a JSON string literal. -/
def escC (c : Char) : List Char :=
  if c = '"' ∨ c = '\\' then ['\\', c] else [c]

/-- Escape a whole key for embedding in a JSON string literal. -/
def escStr : List Char → List Char
  | [] => []
  | c :: l => escC c ++ escStr l

/-- The characters of a JSON boolean literal. -/
def boolChars (b : Bool) : List Char :=
  if b then ['t', 'r', 'u', 'e'] else ['f', 'a', 'l', 's', 'e']

/-- Render one `"key": value` pair. -/
def renderPair (k : String) (b : Bool) : List Char :=
  '"' :: (escStr k.data ++ '"' :: ':' :: ' ' :: boolChars b)

/-- Render the items of the object followed by the closing brace. -/
def renderItems : List (String × Bool) → List Char
  | [] => ['}']
  | [(k, b)] => renderPair k b ++ ['}']
  | (k, b) :: tl => renderPair k b ++ ',' :: ' ' :: renderItems tl

/-- Serialize a status mapping exactly as `json.dump` prints a flat dict. -/
def renderStatus (m : List (String × Bool)) : String :=
  ⟨'{' :: renderItems m⟩

/-- Parse a JSON string literal body (the opening quote already consumed);
returns the unescaped content and the remaining input. -/
def parseStrLit : List Char → Option (List Char × List Char)
  | [] => none
  | c :: r =>
    if c = '"' then some ([], r)
    else if c = '\\' then
      match r with
      | [] => none
      | d :: r2 =>
        match parseStrLit r2 with
        | none => none
        | some (s, rest) => some (d :: s, rest)
    else
      match parseStrLit r with
      | none => none
      | some (s, rest) => some (c :: s, rest)

/-- Parse a JSON boolean literal. -/
def parseBoolLit : List Char → Option (Bool × List Char)
  | 't' :: 'r' :: 'u' :: 'e' :: r => some (true, r)
  | 'f' :: 'a' :: 'l' :: 's' :: 'e' :: r => some (false, r)
  | _ => none

/-- Parse `"key": value` pairs separated by `, ` up to the closing brace.
Fuel bounds the number of items (any fuel at least the item count works). -/
def parseItems : Nat → List Char → Option (List (String × Bool))
  | 0, _ => none
  | fuel + 1, l =>
    match l with
    | '"' :: rest =>
      match parseStrLit rest with
      | none => none
      | some (k, r1) =>
        match r1 with
        | ':' :: ' ' :: r2 =>
          match parseBoolLit r2 with
          | none => none
          | some (b, r3) =>
            match r3 with
            | '}' :: [] => some [(⟨k⟩, b)]
            | ',' :: ' ' :: r4 =>
              match parseItems fuel r4 with
              | none => none
              | some tl => some ((⟨k⟩, b) :: tl)
            | _ => none
        | _ => none
    | _ => none

/-- Parse a flat JSON object of booleans; `none` models a `json.load` failure. -/
def parseStatus (s : String) : Option (List (String × Bool)) :=
  match s.data with
  | '{' :: rest =>
    if rest = ['}'] then some []
    else parseItems rest.length rest
  | _ => none

/-- Model of `load_previous_status`: the file is `none` when `status.json` does
not exist or cannot be read; a parse failure is swallowed; both give `{}`. -/
def load_previous_status (file : Option String) : List (String × Bool) :=
  match file with
  | none => []
  | some s => (parseStatus s).getD []

/-- Model of `save_status`: the content written to `status.json` when the write
succeeds (a write failure is caught in the source and leaves the file alone). -/
def save_status (m : List (String × Bool)) : String :=
  renderStatus m

/-! ### Codec round-trip lemmas -/

/-- The string-literal parser inverts the escaper up to the closing quote. -/
theorem parseStrLit_escStr (l rest : List Char) :
    parseStrLit (escStr l ++ '"' :: rest) = some (l, rest) := by
  induction l with
  | nil =>
    rw [escStr, List.nil_append, parseStrLit.eq_def]
    simp
  | cons c l ih =>
    by_cases h : c = '"' ∨ c = '\\'
    · have hc : escC c = ['\\', c] := by simp [escC, h]
      simp only [escStr, hc, List.cons_append, List.append_assoc]
      rw [parseStrLit.eq_def]
      simp [ih]
    · push_neg at h
      have hc : escC c = [c] := by simp [escC, h.1, h.2]
      simp only [escStr, hc, List.cons_append, List.append_assoc]
      rw [parseStrLit.eq_def]
      simp [h.1, h.2, ih]

/-- The boolean-literal parser inverts `boolChars`. -/
theorem parseBoolLit_boolChars (b : Bool) (rest : List Char) :
    parseBoolLit (boolChars b ++ rest) = some (b, rest) := by
  cases b <;> rfl

/-- With enough fuel, the item parser inverts the item renderer on nonempty
mappings. -/
theorem parseItems_renderItems :
    ∀ (m : List (String × Bool)) (fuel : Nat), m ≠ [] → m.length ≤ fuel →
      parseItems fuel (renderItems m) = some m := by
  intro m
  induction m with
  | nil => intro fuel h _; exact absurd rfl h
  | cons p tl ih =>
    intro fuel _ hlen
    obtain ⟨⟨kd⟩, b⟩ := p
    cases fuel with
    | zero => simp at hlen
    | succ f =>
      cases tl with
      | nil =>
        simp only [renderItems, renderPair, List.cons_append, List.append_assoc,
          String.data]
        simp [parseItems, parseStrLit_escStr, parseBoolLit_boolChars]
      | cons q tl2 =>
        simp only [renderItems, renderPair, List.cons_append, List.append_assoc,
          String.data]
        have hlen2 : (q :: tl2).length ≤ f := by
          simp only [List.length_cons] at hlen ⊢; omega
        simp [parseItems, parseStrLit_escStr, parseBoolLit_boolChars,
          ih f (by simp) hlen2]

/-- The rendered item list is at least as long as the mapping. -/
theorem length_le_renderItems (m : List (String × Bool)) :
    m.length ≤ (renderItems m).length := by
  induction m with
  | nil => simp [renderItems]
  | cons p tl ih =>
    obtain ⟨k, b⟩ := p
    cases tl with
    | nil => simp [renderItems, renderPair]
    | cons q tl2 =>
      simp only [renderItems, renderPair, List.length_append, List.length_cons] at ih ⊢
      omega

/-- Parsing inverts rendering on every flat string-to-boolean mapping. -/
theorem parseStatus_renderStatus (m : List (String × Bool)) :
    parseStatus (renderStatus m) = some m := by
  cases m with
  | nil => rfl
  | cons p tl =>
    obtain ⟨k, b⟩ := p
    have ht : ∃ t, renderItems ((k, b) :: tl) = '"' :: t := by
      cases tl <;> exact ⟨_, rfl⟩
    obtain ⟨t, ht⟩ := ht
    have hne : renderItems ((k, b) :: tl) ≠ ['}'] := by
      rw [ht]; intro h; injection h with h1 _; exact absurd h1 (by decide)
    simp only [parseStatus, renderStatus]
    rw [if_neg hne]
    exact parseItems_renderItems ((k, b) :: tl) _ (by simp)
      (le_trans (by simp) (length_le_renderItems ((k, b) :: tl)))

/-! ## Clickability classifier

Each browser interaction inside `check_button_clickability` can raise; an
`Except String` value records either its result or the exception text. The
hover probe catches its own failure, so a single boolean records whether the
hover succeeded within its timeout. -/

/-- The observable state of the located cart button, one field per signal the
source inspects. -/
structure ButtonState where
  enabledCheck : Except String Bool
  classAttr : Except String (Option String)
  opacityCheck : Except String ℚ
  pointerEventsCheck : Except String String
  hoverOk : Bool

/-- The fixed list of disabled-looking class tokens from the source. -/
def disabled_classes : List String :=
  ["disabled", "inactive", "not-available", "sold-out", "out-of-stock"]

/-- Leading-match test on character lists. -/
def leadMatch : List Char → List Char → Bool
  | [], _ => true
  | _ :: _, [] => false
  | a :: as, b :: bs => a = b && leadMatch as bs

/-- Substring test on character lists, modelling the Python `in` operator. -/
def hasSub (needle : List Char) : List Char → Bool
  | [] => needle.isEmpty
  | c :: t => leadMatch needle (c :: t) || hasSub needle t

/-- Lower-case a string character by character, modelling `str.lower()`. -/
def lowerStr (s : String) : String :=
  ⟨s.data.map Char.toLower⟩

/-- Model of `check_button_clickability`: evaluate the disabled-signals in the
source order, returning `false` on the first triggering signal or on any
exception, `true` only when every signal passes. -/
def check_button_clickability (b : ButtonState) : Bool :=
  match b.enabledCheck with
  | .error _ => false
  | .ok enabled =>
    if !enabled then false
    else
      match b.classAttr with
      | .error _ => false
      | .ok cls =>
        let button_classes := cls.getD ""
        if disabled_classes.any
            (fun dc => hasSub dc.data (lowerStr button_classes).data) then false
        else
          match b.opacityCheck with
          | .error _ => false
          | .ok opacity =>
            if opacity < 1/2 then false
            else
              match b.pointerEventsCheck with
              | .error _ => false
              | .ok pe =>
                if pe = "none" then false
                else b.hoverOk

/-- Outcome of the browser fetch in `check_product_availability`: the wait for
the cart button timed out, some other exception was raised, or the button was
found with the given observable state. -/
inductive FetchOutcome where
  | timeout
  | exn (msg : String)
  | ok (b : ButtonState)

/-- Model of `check_product_availability`: a timeout or any other exception is
caught and turned into `sys.exit(1)`, modelled as `Except.error 1`; otherwise
the clickability verdict decides the result pair. -/
def check_product_availability (o : FetchOutcome) : Except Nat (Bool × String) :=
  match o with
  | .timeout => .error 1
  | .exn _ => .error 1
  | .ok b =>
    if check_button_clickability b then .ok (true, "In Stock")
    else .ok (false, "Out of Stock")

/-- The availability boolean the orchestrator receives, `none` when the check
aborts the run. -/
def availOf (o : FetchOutcome) : Option Bool :=
  match check_product_availability o with
  | .error _ => none
  | .ok p => some p.1

/-! ## Notifier -/

/-- The environment variables the script reads; `none` means unset. -/
structure Env where
  emailAddress : Option String
  emailPassword : Option String
  toEmail : Option String

/-- Python truthiness of an optional environment string: falsy when unset or
empty. -/
def strFalsy (o : Option String) : Bool :=
  match o with
  | none => true
  | some s => s.isEmpty

/-- What a call to `send_email` did: the returned boolean and the recipient
address it computed. -/
structure SendResult where
  ok : Bool
  recipient : Option String

/-- Model of `send_email`: the recipient defaults to the sender; missing
credentials return `false` without raising; every transport error is caught
and returns `false`. `transportOk` abstracts the SMTP session succeeding. -/
def send_email (env : Env) (transportOk : Bool) : SendResult :=
  let from_email := env.emailAddress
  let password := env.emailPassword
  let to_email := match env.toEmail with
    | some t => some t
    | none => from_email
  if strFalsy from_email || strFalsy password then
    { ok := false, recipient := to_email }
  else
    { ok := transportOk, recipient := to_email }

/-- Model of `test_gmail_connection`: false on missing credentials or a failed
SMTP handshake, abstracted by `connOk`. -/
def test_gmail_connection (env : Env) (connOk : Bool) : Bool :=
  if strFalsy env.emailAddress || strFalsy env.emailPassword then false
  else connOk

/-! ## Run orchestrator -/

/-- Python `dict.get(k, False)` over the loaded mapping, with the later binding
winning as in a dict built from parsed JSON. -/
def lookupStatus (m : List (String × Bool)) (k : String) : Bool :=
  (m.foldl (fun acc p => if p.1 = k then some p.2 else acc)
    (none : Option Bool)).getD false

/-- The external outcomes one invocation of `main` can encounter. -/
structure RunInput where
  connOk : Bool
  transportOk : Bool
  saveOk : Bool
  fetch : FetchOutcome

/-- Observable results of one invocation of `main`. -/
structure RunResult where
  exitCode : Nat
  fileAfter : Option String
  notificationAttempts : Nat
  notificationsSent : Nat
  emailsSentCount : Nat

/-- Model of `main`: connection test plus unconditional test email, load the
previous status, check the single product, notify only on a false-to-true
transition, save the current status. A `sys.exit` aborts before the save, so
the file is unchanged on that path. -/
def main (env : Env) (fileBefore : Option String) (inp : RunInput) : RunResult :=
  let testSuccess := test_gmail_connection env inp.connOk
  let testSent := testSuccess && (send_email env inp.transportOk).ok
  let previous_status := load_previous_status fileBefore
  match check_product_availability inp.fetch with
  | .error code =>
    { exitCode := code
      fileAfter := fileBefore
      notificationAttempts := 0
      notificationsSent := 0
      emailsSentCount := if testSent then 1 else 0 }
  | .ok (is_available, _msg) =>
    let current_status : List (String × Bool) := [("Lassi", is_available)]
    let was_available := lookupStatus previous_status "Lassi"
    let attempts := if is_available && !was_available then 1 else 0
    let sent :=
      if is_available && !was_available then
        if (send_email env inp.transportOk).ok then 1 else 0
      else 0
    { exitCode := 0
      fileAfter := if inp.saveOk then some (save_status current_status) else fileBefore
      notificationAttempts := attempts
      notificationsSent := sent
      emailsSentCount := (if testSent then 1 else 0) + sent }

/-- A sequence of scheduled runs threading the status file on disk. -/
def runSeq (env : Env) (file : Option String) : List RunInput → List RunResult
  | [] => []
  | i :: rest =>
    let r := main env file i
    r :: runSeq env r.fileAfter rest

/-! ## Keyword-policy classifier -/

/-- Modelled from the spec: the keyword-policy classifier of the HTTP-based
script variant, which is not present under `src/`. Locate one element by
selector; if absent, classify unavailable with message `element not found`;
otherwise lower-case its text and report available if any configured keyword
is a substring, else unavailable with a truncated text snippet as message. -/
def keyword_check (elementText : Option String) (keywords : List String)
    (snippetLen : Nat) : Bool × String :=
  match elementText with
  | none => (false, "element not found")
  | some t =>
    let lowered := lowerStr t
    if keywords.any (fun k => hasSub k.data lowered.data) then (true, lowered)
    else (false, ⟨lowered.data.take snippetLen⟩)

/-! ## Concrete states used by the witnesses -/

/-- A clickable button: enabled, neutral classes, full opacity, pointer events
on, hover succeeds. -/
def okBtn : ButtonState :=
  ⟨.ok true, .ok none, .ok 1, .ok "auto", true⟩

/-- A button whose disabled attribute is set. -/
def offBtn : ButtonState :=
  ⟨.ok false, .ok none, .ok 1, .ok "auto", true⟩

/-- An enabled button rendered at opacity `0.3`. -/
def dimBtn : ButtonState :=
  ⟨.ok true, .ok none, .ok (3/10), .ok "auto", true⟩

/-- A button whose opacity probe raises. -/
def errBtn : ButtonState :=
  ⟨.ok true, .ok none, .error "evaluate failed", .ok "auto", true⟩

/-- An environment with both credentials configured and no recipient
override. -/
def env0 : Env :=
  ⟨some "sender@example.com", some "secret", none⟩

/-- An environment with the credential unset. -/
def envNoPw : Env :=
  ⟨some "sender@example.com", none, none⟩

/-- A run in which everything works and the product is unavailable. -/
def inpUnavail : RunInput :=
  ⟨true, true, true, .ok offBtn⟩

/-- A run in which everything works and the product is available. -/
def inpAvail : RunInput :=
  ⟨true, true, true, .ok okBtn⟩

/-- A run in which the product is available but the mail transport fails. -/
def inpAvailNoMail : RunInput :=
  ⟨true, false, true, .ok okBtn⟩

/-- A run in which the cart button never appears. -/
def inpTimeout : RunInput :=
  ⟨true, true, true, .timeout⟩

/-! ## Helper lemmas about the orchestrator -/

/-- Unfolding of `main` on the aborting path. -/
theorem main_error_spec (env : Env) (file : Option String) (inp : RunInput)
    (c : Nat) (h : check_product_availability inp.fetch = .error c) :
    main env file inp =
      { exitCode := c
        fileAfter := file
        notificationAttempts := 0
        notificationsSent := 0
        emailsSentCount :=
          if test_gmail_connection env inp.connOk
              && (send_email env inp.transportOk).ok then 1 else 0 } := by
  unfold main
  rw [h]

/-- Unfolding of `main` on the completing path. -/
theorem main_ok_spec (env : Env) (file : Option String) (inp : RunInput)
    (a : Bool) (msg : String)
    (h : check_product_availability inp.fetch = .ok (a, msg)) :
    main env file inp =
      { exitCode := 0
        fileAfter :=
          if inp.saveOk then some (save_status [("Lassi", a)]) else file
        notificationAttempts :=
          if a && !(lookupStatus (load_previous_status file) "Lassi")
            then 1 else 0
        notificationsSent :=
          if a && !(lookupStatus (load_previous_status file) "Lassi")
            then if (send_email env inp.transportOk).ok then 1 else 0
            else 0
        emailsSentCount :=
          (if test_gmail_connection env inp.connOk
              && (send_email env inp.transportOk).ok then 1 else 0)
          + (if a && !(lookupStatus (load_previous_status file) "Lassi")
              then if (send_email env inp.transportOk).ok then 1 else 0
              else 0) } := by
  unfold main
  rw [h]

/-- The availability boolean determines a completing check up to the message. -/
theorem availOf_eq_some (o : FetchOutcome) (a : Bool) :
    availOf o = some a ↔ ∃ msg, check_product_availability o = .ok (a, msg) := by
  unfold availOf
  cases h : check_product_availability o with
  | error c => simp
  | ok p =>
    obtain ⟨b, m⟩ := p
    simp only [Option.some.injEq, Except.ok.injEq, Prod.mk.injEq]
    constructor
    · intro hb; exact ⟨m, hb, rfl⟩
    · intro ⟨msg, hb, _⟩; exact hb

/-- Loading the file written for availability `a` stores `a` for the product. -/
theorem lookup_after_save (a : Bool) :
    lookupStatus (load_previous_status (some (save_status [("Lassi", a)])))
      "Lassi" = a := by
  simp only [load_previous_status, save_status]
  rw [parseStatus_renderStatus]
  simp [lookupStatus]

/-- A failed transport always yields a failed send. -/
theorem send_email_transport_failed (env : Env) :
    (send_email env false).ok = false := by
  unfold send_email
  dsimp only
  split <;> rfl

/-- Characterization of the clickability verdict: the button is classified
clickable exactly when every disabled-signal evaluates without exception and
passes. -/
theorem clickability_iff (b : ButtonState) :
    check_button_clickability b = true ↔
      (b.enabledCheck = .ok true
      ∧ (∃ cls, b.classAttr = .ok cls
          ∧ (disabled_classes.any fun dc =>
              hasSub dc.data (lowerStr (cls.getD "")).data) = false)
      ∧ (∃ op, b.opacityCheck = .ok op ∧ ¬ op < 1/2)
      ∧ (∃ pe, b.pointerEventsCheck = .ok pe ∧ pe ≠ "none")
      ∧ b.hoverOk = true) := by
  obtain ⟨ec, cl, op, pe, hv⟩ := b
  simp only [check_button_clickability]
  constructor
  · intro h
    cases ec with
    | error e => exact absurd h (by simp)
    | ok en =>
      cases en with
      | false => exact absurd h (by simp)
      | true =>
        cases cl with
        | error e => exact absurd h (by simp)
        | ok cls =>
          dsimp only at h
          by_cases hcl : (disabled_classes.any fun dc =>
              hasSub dc.data (lowerStr (cls.getD "")).data) = true
          · rw [if_pos hcl] at h
            exact absurd h (by simp)
          · rw [if_neg hcl] at h
            cases op with
            | error e => exact absurd h (by simp)
            | ok opacity =>
              dsimp only at h
              by_cases hop : opacity < 1/2
              · rw [if_pos hop] at h
                exact absurd h (by simp)
              · rw [if_neg hop] at h
                cases pe with
                | error e => exact absurd h (by simp)
                | ok pes =>
                  dsimp only at h
                  by_cases hpe : pes = "none"
                  · rw [if_pos hpe] at h
                    exact absurd h (by simp)
                  · rw [if_neg hpe] at h
                    exact ⟨rfl, ⟨cls, rfl, Bool.not_eq_true _ ▸ hcl⟩,
                      ⟨opacity, rfl, hop⟩, ⟨pes, rfl, hpe⟩, h⟩
  · rintro ⟨hen, ⟨cls, hcls, hany⟩, ⟨o, ho, hlt⟩, ⟨ps, hps, hpne⟩, hhv⟩
    subst hen
    subst hcls
    subst ho
    subst hps
    subst hhv
    dsimp only
    rw [if_neg (by simp [hany]), if_neg hlt, if_neg hpne]
    simp [hany]

/-- A fully passing button is reported available by the fetch-and-check. -/
theorem avail_okBtn : availOf (FetchOutcome.ok okBtn) = some true := by
  have hcls : (disabled_classes.any fun dc =>
      hasSub dc.data (lowerStr "").data) = false := by decide
  have hop : ((2 : ℚ)⁻¹ ≤ 1) := by norm_num
  simp [availOf, check_product_availability, check_button_clickability, okBtn,
    hcls, hop]

/-- Claim C4: once the action control is found, the disabled-signals are
evaluated in the fixed order, short-circuiting on the first true signal, so the
classification is clickable exactly when every signal passes; in particular a
button whose computed opacity is 0.3 is classified unavailable regardless of
the disabled attribute. -/
theorem clickability_policy_spec (b : ButtonState) :
    (check_button_clickability b = true ↔
      (b.enabledCheck = .ok true
      ∧ (∃ cls, b.classAttr = .ok cls
          ∧ (disabled_classes.any fun dc =>
              hasSub dc.data (lowerStr (cls.getD "")).data) = false)
      ∧ (∃ op, b.opacityCheck = .ok op ∧ ¬ op < 1/2)
      ∧ (∃ pe, b.pointerEventsCheck = .ok pe ∧ pe ≠ "none")
      ∧ b.hoverOk = true))
    ∧ (b.opacityCheck = .ok ((3 : ℚ)/10) → check_button_clickability b = false) := by
  refine ⟨clickability_iff b, ?_⟩
  intro hop
  cases hres : check_button_clickability b with
  | false => rfl
  | true =>
    obtain ⟨-, -, ⟨o, hoEq, hlt⟩, -, -⟩ := (clickability_iff b).1 hres
    rw [hop] at hoEq
    injection hoEq with h2
    subst h2
    exact absurd (by norm_num : ((3 : ℚ)/10) < 1/2) hlt

/-- Witness for C4: a button rendered at opacity 0.3 while its disabled
attribute is absent is classified unavailable. -/
theorem clickability_policy_witness : check_button_clickability dimBtn = false :=
  (clickability_policy_spec dimBtn).2 rfl

/-- Claim C10: an exception raised while evaluating any disabled-signal is
caught inside `check_button_clickability` and yields the classification
`false`; a failed hover likewise yields `false`. -/
theorem clickability_catches_exceptions (b : ButtonState) :
    (∀ e, b.enabledCheck = .error e → check_button_clickability b = false)
    ∧ (∀ e, b.classAttr = .error e → check_button_clickability b = false)
    ∧ (∀ e, b.opacityCheck = .error e → check_button_clickability b = false)
    ∧ (∀ e, b.pointerEventsCheck = .error e → check_button_clickability b = false)
    ∧ (b.hoverOk = false → check_button_clickability b = false) := by
  have hfalse : ∀ P : Prop, ¬ P →
      ((check_button_clickability b = true → P) → check_button_clickability b = false) := by
    intro P hnp himp
    cases hres : check_button_clickability b with
    | false => rfl
    | true => exact absurd (himp hres) hnp
  refine ⟨?_, ?_, ?_, ?_, ?_⟩
  · intro e he
    refine hfalse _ ?_ fun hres => ((clickability_iff b).1 hres).1
    rw [he]; simp
  · intro e he
    refine hfalse _ ?_ fun hres => ((clickability_iff b).1 hres).2.1
    rw [he]; simp
  · intro e he
    refine hfalse _ ?_ fun hres => ((clickability_iff b).1 hres).2.2.1
    rw [he]; simp
  · intro e he
    refine hfalse _ ?_ fun hres => ((clickability_iff b).1 hres).2.2.2.1
    rw [he]; simp
  · intro he
    refine hfalse _ ?_ fun hres => ((clickability_iff b).1 hres).2.2.2.2
    rw [he]; simp

/-- Witness for C10: a button whose opacity probe raises is classified
unavailable. -/
theorem clickability_exception_witness : check_button_clickability errBtn = false :=
  (clickability_catches_exceptions errBtn).2.2.1 "evaluate failed" rfl

/-- Claim C7: saving a status mapping with the status store and loading it
back yields an equal mapping. -/
theorem status_store_roundtrip (m : List (String × Bool)) :
    load_previous_status (some (save_status m)) = m := by
  simp only [load_previous_status, save_status]
  rw [parseStatus_renderStatus]
  rfl

/-- Claim C8: the keyword-policy classifier reports unavailable with message
`element not found` when the element is absent, reports available exactly when
some configured keyword is a substring of the lower-cased element text (so
text `Add to Bag` with keyword `add to bag` is available), and reports a
truncated text snippet as message on no match. -/
theorem keyword_policy_spec :
    (∀ (ks : List String) (n : Nat),
      keyword_check none ks n = (false, "element not found"))
    ∧ (∀ (t : String) (ks : List String) (n : Nat),
      (keyword_check (some t) ks n).1
        = ks.any fun k => hasSub k.data (lowerStr t).data)
    ∧ (keyword_check (some "Add to Bag") ["add to bag"] 100).1 = true
    ∧ (∀ (t : String) (ks : List String) (n : Nat),
      (keyword_check (some t) ks n).1 = false →
      keyword_check (some t) ks n = (false, ⟨(lowerStr t).data.take n⟩)) := by
  have hfst : ∀ (t : String) (ks : List String) (n : Nat),
      (keyword_check (some t) ks n).1
        = ks.any fun k => hasSub k.data (lowerStr t).data := by
    intro t ks n
    unfold keyword_check
    dsimp only
    by_cases h : (ks.any fun k => hasSub k.data (lowerStr t).data) = true
    · rw [if_pos h, h]
    · rw [if_neg h]
      simp only [Bool.not_eq_true] at h
      rw [h]
  refine ⟨fun ks n => rfl, hfst, by decide, ?_⟩
  intro t ks n h
  rw [hfst] at h
  unfold keyword_check
  dsimp only
  rw [if_neg (by simp [h])]

/-- Witness for C8: text `Sold Out` with keyword `add to bag` is unavailable
and the message is the 5-character snippet of the lower-cased text. -/
theorem keyword_policy_witness :
    keyword_check (some "Sold Out") ["add to bag"] 5
      = (false, ⟨(lowerStr "Sold Out").data.take 5⟩) :=
  keyword_policy_spec.2.2.2 "Sold Out" ["add to bag"] 5 (by decide)

/-- Claim C2: a stored false-to-true transition triggers exactly one
notification attempt in the later run, and a true-to-true transition triggers
zero notification attempts. -/
theorem transition_notification_counts (env : Env) (file : Option String)
    (inp : RunInput) :
    (lookupStatus (load_previous_status file) "Lassi" = false →
      availOf inp.fetch = some true →
      (main env file inp).notificationAttempts = 1)
    ∧ (lookupStatus (load_previous_status file) "Lassi" = true →
      availOf inp.fetch = some true →
      (main env file inp).notificationAttempts = 0) := by
  constructor
  · intro hw ha
    obtain ⟨msg, hc⟩ := (availOf_eq_some _ _).1 ha
    rw [main_ok_spec env file inp true msg hc]
    simp [hw]
  · intro hw ha
    obtain ⟨msg, hc⟩ := (availOf_eq_some _ _).1 ha
    rw [main_ok_spec env file inp true msg hc]
    simp [hw]

/-- Witness for C2: with an empty store and an available product, exactly one
notification attempt occurs. -/
theorem transition_notification_witness :
    (main env0 none inpAvail).notificationAttempts = 1 :=
  (transition_notification_counts env0 none inpAvail).1 (by decide)
    (by simpa [inpAvail] using avail_okBtn)

/-- Claim C3: loading the status store never fails: a missing file or a parse
failure yields the empty mapping, and with an empty loaded mapping every
available product triggers a notification attempt. -/
theorem load_fail_open :
    load_previous_status none = []
    ∧ (∀ s, parseStatus s = none → load_previous_status (some s) = [])
    ∧ (∀ (env : Env) (file : Option String) (inp : RunInput),
        load_previous_status file = [] → availOf inp.fetch = some true →
        (main env file inp).notificationAttempts = 1) := by
  refine ⟨rfl, ?_, ?_⟩
  · intro s hs
    simp [load_previous_status, hs]
  · intro env file inp hf ha
    obtain ⟨msg, hc⟩ := (availOf_eq_some _ _).1 ha
    rw [main_ok_spec env file inp true msg hc]
    simp [hf, lookupStatus]

/-- Witness for C3: an unparsable file loads as the empty mapping and an
available product then triggers a notification attempt. -/
theorem load_fail_open_witness :
    load_previous_status (some "garbage") = []
    ∧ (main env0 (some "garbage") inpAvail).notificationAttempts = 1 :=
  ⟨load_fail_open.2.1 "garbage" (by decide),
    load_fail_open.2.2 env0 (some "garbage") inpAvail (by decide)
      (by simpa [inpAvail] using avail_okBtn)⟩

/-- Claim C5: when the cart button never appears (or the fetch raises), the
run exits with code 1, no notification is attempted, and the status file is
left unchanged. -/
theorem structural_failure_aborts (env : Env) (file : Option String)
    (inp : RunInput)
    (h : inp.fetch = FetchOutcome.timeout ∨ ∃ m, inp.fetch = FetchOutcome.exn m) :
    (main env file inp).exitCode = 1
    ∧ (main env file inp).fileAfter = file
    ∧ (main env file inp).notificationAttempts = 0
    ∧ (main env file inp).notificationsSent = 0 := by
  have hc : check_product_availability inp.fetch = .error 1 := by
    rcases h with h | ⟨m, h⟩ <;> rw [h] <;> rfl
  rw [main_error_spec env file inp 1 hc]
  exact ⟨rfl, rfl, rfl, rfl⟩

/-- Witness for C5: a timed-out wait exits 1 and leaves the file alone. -/
theorem structural_failure_witness :
    (main env0 none inpTimeout).exitCode = 1
    ∧ (main env0 none inpTimeout).fileAfter = none
    ∧ (main env0 none inpTimeout).notificationAttempts = 0
    ∧ (main env0 none inpTimeout).notificationsSent = 0 :=
  structural_failure_aborts env0 none inpTimeout (Or.inl rfl)

/-- Claim C6: `send_email` always returns a boolean, returns false when the
sender address or credential is unset, returns false on a transport error, and
addresses the sender when no recipient override is configured. -/
theorem send_email_spec (env : Env) (tOk : Bool) :
    ((send_email env tOk).ok = true ∨ (send_email env tOk).ok = false)
    ∧ (env.emailAddress = none ∨ env.emailPassword = none →
        (send_email env tOk).ok = false)
    ∧ (tOk = false → (send_email env tOk).ok = false)
    ∧ (env.toEmail = none → (send_email env tOk).recipient = env.emailAddress) := by
  refine ⟨?_, ?_, ?_, ?_⟩
  · cases (send_email env tOk).ok
    · exact Or.inr rfl
    · exact Or.inl rfl
  · intro h
    have hf : (strFalsy env.emailAddress || strFalsy env.emailPassword) = true := by
      rcases h with h | h <;> rw [h] <;> simp [strFalsy]
    unfold send_email
    dsimp only
    rw [if_pos hf]
  · rintro rfl
    exact send_email_transport_failed env
  · intro h
    unfold send_email
    dsimp only
    rw [h]
    split <;> rfl

/-- Witness for C6: a missing credential yields a false return. -/
theorem send_email_spec_witness : (send_email envNoPw true).ok = false :=
  (send_email_spec envNoPw true).2.1 (Or.inr rfl)

/-- Claim C9: when the product is available, the stored status is false and
the notification transport fails, the run still completes with exit code 0,
the failure is counted as not sent, the status is persisted as available, and
a later available run attempts no further notification. -/
theorem failed_notification_updates_status (env : Env) (file : Option String)
    (inp inp2 : RunInput)
    (ha : availOf inp.fetch = some true)
    (hw : lookupStatus (load_previous_status file) "Lassi" = false)
    (ht : inp.transportOk = false)
    (hs : inp.saveOk = true) :
    (main env file inp).exitCode = 0
    ∧ (main env file inp).notificationAttempts = 1
    ∧ (main env file inp).notificationsSent = 0
    ∧ (main env file inp).fileAfter = some (save_status [("Lassi", true)])
    ∧ (availOf inp2.fetch = some true →
        (main env (main env file inp).fileAfter inp2).notificationAttempts = 0) := by
  obtain ⟨msg, hc⟩ := (availOf_eq_some _ _).1 ha
  have hmain := main_ok_spec env file inp true msg hc
  rw [hmain]
  refine ⟨rfl, by simp [hw], ?_, by simp [hs], ?_⟩
  · rw [ht]
    simp [hw, send_email_transport_failed]
  · intro ha2
    obtain ⟨msg2, hc2⟩ := (availOf_eq_some _ _).1 ha2
    rw [main_ok_spec env _ inp2 true msg2 hc2]
    simp [hs, lookup_after_save]

/-- Witness for C9: available product, empty store, failing transport: one
attempt, zero sent, status persisted as available, and the next available run
attempts nothing. -/
theorem failed_notification_witness :
    (main env0 none inpAvailNoMail).exitCode = 0
    ∧ (main env0 none inpAvailNoMail).notificationAttempts = 1
    ∧ (main env0 none inpAvailNoMail).notificationsSent = 0
    ∧ (main env0 none inpAvailNoMail).fileAfter
        = some (save_status [("Lassi", true)])
    ∧ (availOf inpAvail.fetch = some true →
        (main env0 (main env0 none inpAvailNoMail).fileAfter
          inpAvail).notificationAttempts = 0) :=
  failed_notification_updates_status env0 none inpAvailNoMail inpAvail
    (by simpa [inpAvailNoMail] using avail_okBtn) (by decide) rfl rfl

/-- Counterexample to C1 as stated: with working credentials the script sends
its unconditional SMTP test email on every run, so an email is sent during the
second of two consecutive unavailable runs. -/
theorem secondRun_sends_test_email :
    availOf inpUnavail.fetch = some false
    ∧ ((runSeq env0 none [inpUnavail, inpUnavail]).map
        RunResult.emailsSentCount) = [1, 1] := by
  decide

/-- Claim C1 (amended): across two consecutive runs in which the classifier
reports unavailable, no notification email is attempted or sent in the second
run; in any run a notification is attempted only on a stored false-to-true
transition, and a completed available run with a successful save stores true,
so a notification email is sent at most once per false-to-true transition.
The unconditional SMTP test email is excluded from this count. -/
theorem notification_once_per_transition (env : Env) (file : Option String) :
    (∀ i1 i2 : RunInput,
      availOf i1.fetch = some false → availOf i2.fetch = some false →
      (main env (main env file i1).fileAfter i2).notificationAttempts = 0
      ∧ (main env (main env file i1).fileAfter i2).notificationsSent = 0)
    ∧ (∀ inp : RunInput, 1 ≤ (main env file inp).notificationAttempts →
      availOf inp.fetch = some true
      ∧ lookupStatus (load_previous_status file) "Lassi" = false)
    ∧ (∀ inp : RunInput, availOf inp.fetch = some true → inp.saveOk = true →
      lookupStatus (load_previous_status (main env file inp).fileAfter)
        "Lassi" = true) := by
  refine ⟨?_, ?_, ?_⟩
  · intro i1 i2 _ h2
    obtain ⟨m2, hc2⟩ := (availOf_eq_some _ _).1 h2
    rw [main_ok_spec env _ i2 false m2 hc2]
    exact ⟨by simp, by simp⟩
  · intro inp h
    cases hA : check_product_availability inp.fetch with
    | error c =>
      rw [main_error_spec env file inp c hA] at h
      simp at h
    | ok p =>
      obtain ⟨a, m⟩ := p
      rw [main_ok_spec env file inp a m hA] at h
      by_cases hcond :
          (a && !(lookupStatus (load_previous_status file) "Lassi")) = true
      · rw [Bool.and_eq_true] at hcond
        obtain ⟨ha, hwn⟩ := hcond
        refine ⟨(availOf_eq_some _ _).2 ⟨m, by rw [hA, ha]⟩, ?_⟩
        simpa using hwn
      · rw [if_neg hcond] at h
        simp at h
  · intro inp ha hs
    obtain ⟨m, hc⟩ := (availOf_eq_some _ _).1 ha
    rw [main_ok_spec env file inp true m hc]
    simp only [hs, if_true]
    exact lookup_after_save true

/-- Witness for the amended C1: two concrete consecutive unavailable runs
attempt and send no notification in the second run. -/
theorem notification_once_witness :
    (main env0 (main env0 none inpUnavail).fileAfter
      inpUnavail).notificationAttempts = 0
    ∧ (main env0 (main env0 none inpUnavail).fileAfter
      inpUnavail).notificationsSent = 0 :=
  (notification_once_per_transition env0 none).1 inpUnavail inpUnavail
    (by decide) (by decide)

end ProductMonitor
